import Mathlib

/-!
Verification of the geotiff Go library (package geotiff).

This file gives a shallow embedding of the parts of the source that the
claims C1 to C10 are about:

- the TIFF field-type width table and its lookup (const.go, fieldType.bytes),
- the directory-entry processing step of readTags (inline versus offset
  value resolution) and the tag value decoder iFDEntry.value,
- the tile data assembler readData,
- the GeoTIFF image record with its query operations loc, Bounds, AtCoord,
  interp and AtPoints, and the constructors New and the pixel-scale
  extraction step of Read.

Conventions of the embedding:

- Go unsigned integers become Nat; arithmetic that Go performs at a fixed
  width is wrapped explicitly with u16 or u32 (reduction mod 2 to the 16 or
  32).  In particular the uint16 expression w + tw - 1 of the source is
  written u16 (w + tw + 65535), which agrees with the Go wraparound for all
  w, tw < 65536.
- Go float64 and float32 arithmetic is modelled exactly over the rationals.
  The IEEE bit-pattern interpretation performed by binary.Read for FLOAT and
  DOUBLE data is left abstract (the decoder takes interpretation functions
  as arguments).  Division by a zero pixel scale, which in Go produces an
  infinity, does not arise in any theorem below.
- A fallible Go computation returns GoResult: ok for a normal return,
  err for an error return, and panicked for a runtime panic (index out of
  range, division by zero).
- Go slices become lists; the panicking index operation is goIndex.
- The Go map Tags becomes an association list; a map read of a missing key
  yields the zero tagData exactly as in Go where the source reads without
  the ok flag.
-/

namespace Geotiff

/-- Error values returned by the library, one constructor per error site of
the source. -/
inductive GoErr : Type
  | unrecognizedTag (tag : Nat)
  | tiepointMissing
  | tiepointBadLength (n : Nat)
  | tiepointBadType
  | outsideImage
  | outsideBounds
  | missingField (tag : Nat)
  | wrongFieldType (tag : Nat)
  | invalidTileCount
  | badPixelScale
  | invalidNumTiles
  | invalidTileData
  | pixelScaleBadLength (n : Nat)
  | pixelScaleBadType
  | ioError
  deriving DecidableEq, Repr

/-- Outcome of a Go computation: a normal return, an error return, or a
runtime panic. -/
inductive GoResult (α : Type) : Type
  | ok (v : α)
  | err (e : GoErr)
  | panicked
  deriving DecidableEq, Repr

namespace GoResult

/-- Sequencing of Go computations: errors and panics propagate. -/
def bind {α β : Type} : GoResult α → (α → GoResult β) → GoResult β
  | ok v, f => f v
  | err e, _ => err e
  | panicked, _ => panicked

instance : Monad GoResult where
  pure := ok
  bind := bind

end GoResult

open GoResult

/-- Reduction mod 2 to the 16, the wraparound of Go uint16 arithmetic. -/
def u16 (n : Nat) : Nat := n % 65536

/-- Reduction mod 2 to the 32, the wraparound of Go uint32 arithmetic. -/
def u32 (n : Nat) : Nat := n % 4294967296

/-- Go slice indexing: returns the element, or panics when the index is out
of range. -/
def goIndex {α : Type} (l : List α) (i : Nat) : GoResult α :=
  if h : i < l.length then .ok (l.get ⟨i, h⟩) else .panicked

/-- Width table of const.go: fieldTypeLen, the length of every field type in
bytes, indexed by the field-type code; it has 13 entries (codes 0 to 12). -/
def fieldTypeLen : List Nat :=
  [0, 1, 1, 2, 4, 8, 1, 1, 2, 4, 8, 4, 8]

/-- Embedding of fieldType.bytes of const.go:

if f == 0 or int(f) > len(fieldTypeLen) return fieldTypeLen[0];
return fieldTypeLen[int(f)].

Note the guard compares with strictly-greater-than the length 13, so the
code 13 reaches the indexing expression. -/
def fieldTypeBytes (f : Nat) : GoResult Nat :=
  if f = 0 ∨ fieldTypeLen.length < f then goIndex fieldTypeLen 0
  else goIndex fieldTypeLen f

/-- Byte order detected in the TIFF header. -/
inductive ByteOrder : Type
  | little
  | big
  deriving DecidableEq, Repr

/-- Tag constants of const.go that the embedded code uses. -/
def ImageWidthTag : Nat := 256

/-- Tag constant ImageLength. -/
def ImageLengthTag : Nat := 257

/-- Tag constant BitsPerSample. -/
def BitsPerSampleTag : Nat := 258

/-- Tag constant TileWidth. -/
def TileWidthTag : Nat := 322

/-- Tag constant TileLength. -/
def TileLengthTag : Nat := 323

/-- Tag constant TileOffsets. -/
def TileOffsetsTag : Nat := 324

/-- Tag constant TileByteCounts. -/
def TileByteCountsTag : Nat := 325

/-- Tag constant ModelPixelScale. -/
def ModelPixelScaleTag : Nat := 33550

/-- Tag constant ModelTiepoint. -/
def ModelTiepointTag : Nat := 33922

/-- Field-type codes of const.go. -/
def SHORTCode : Nat := 3

/-- Field-type code LONG. -/
def LONGCode : Nat := 4

/-- Field-type code ASCII. -/
def ASCIICode : Nat := 2

/-- Field-type code BYTE. -/
def BYTECode : Nat := 1

/-- Field-type code FLOAT. -/
def FLOATCode : Nat := 11

/-- Field-type code DOUBLE. -/
def DOUBLECode : Nat := 12

/-- Embedding of the iFDEntry record: a 12-byte directory entry.  All fields
are unsigned (tag and ftype are uint16, count and valueOffset uint32). -/
structure IFDEntry : Type where
  tag : Nat
  ftype : Nat
  count : Nat
  valueOffset : Nat
  deriving DecidableEq, Repr

/-- Embedding of tagData: the union-like record holding one decoded tag
value.  Exactly one data field is populated at a time; float and double
data are modelled as exact rationals. -/
structure TagData : Type where
  ftype : Nat := 0
  length : Nat := 0
  byteData : List Nat := []
  asciiData : List Nat := []
  shortData : List Nat := []
  longData : List Nat := []
  floatData : List ℚ := []
  doubleData : List ℚ := []
  deriving DecidableEq, Repr

/-- Zero value of tagData, what a Go map read of a missing key yields. -/
def TagData.zero : TagData := {}

/-- Tags, the map from tag code to tagData, as an association list. -/
abbrev Tags : Type := List (Nat × TagData)

/-- Reading count consecutive bytes from the stream at a given offset: the
embedding of a binary.Read of that many bytes after a Seek.  binary.Read
reports an error when the stream is exhausted before the value is full. -/
def readBytes (stream : List Nat) (off n : Nat) : GoResult (List Nat) :=
  if off + n ≤ stream.length then .ok ((stream.drop off).take n) else .err .ioError

/-- Assembly of one unsigned integer from its little-endian byte list. -/
def assembleLE (bs : List Nat) : Nat :=
  bs.foldr (fun b acc => b + 256 * acc) 0

/-- Normalisation of the bytes of one element to little-endian order: a
big-endian stream stores the most significant byte first. -/
def orderBytes (bo : ByteOrder) (bs : List Nat) : List Nat :=
  match bo with
  | .little => bs
  | .big => bs.reverse

/-- Reading count consecutive width-byte unsigned integers in the given
byte order, the embedding of binary.Read into a uint16 or uint32 slice. -/
def readUInts (stream : List Nat) (bo : ByteOrder) (off width n : Nat) :
    GoResult (List Nat) := do
  let raw ← readBytes stream off (n * width)
  pure ((List.range n).map fun i =>
    assembleLE (orderBytes bo ((raw.drop (i * width)).take width)))

/-- Reading count consecutive width-byte IEEE floating point numbers; the
bit-pattern interpretation interp (from the little-endian-normalised byte
group to the exact rational value) is left abstract. -/
def readFloats (stream : List Nat) (bo : ByteOrder) (interpBits : List Nat → ℚ)
    (off width n : Nat) : GoResult (List ℚ) := do
  let raw ← readBytes stream off (n * width)
  pure ((List.range n).map fun i =>
    interpBits (orderBytes bo ((raw.drop (i * width)).take width)))

/-- Embedding of iFDEntry.value: seeks to the ValueOffset of the entry and
decodes Count elements according to the field type.  f32 and f64 are the
abstract IEEE bit-pattern interpretations for FLOAT and DOUBLE data.  Field
types with no case in the switch (RATIONAL, SBYTE, UNDEFINED, SSHORT,
SLONG, SRATIONAL and NONE) fall through and return the record with every
data field empty, exactly as the source does. -/
def ifdValue (f32 f64 : List Nat → ℚ) (stream : List Nat) (bo : ByteOrder)
    (e : IFDEntry) : GoResult TagData :=
  let t : TagData := { ftype := e.ftype, length := e.count }
  if e.ftype = BYTECode then do
    let bs ← readBytes stream e.valueOffset e.count
    pure { t with byteData := bs }
  else if e.ftype = ASCIICode then do
    let bs ← readBytes stream e.valueOffset e.count
    pure { t with asciiData := bs }
  else if e.ftype = SHORTCode then do
    let vs ← readUInts stream bo e.valueOffset 2 e.count
    pure { t with shortData := vs }
  else if e.ftype = LONGCode then do
    let vs ← readUInts stream bo e.valueOffset 4 e.count
    pure { t with longData := vs }
  else if e.ftype = FLOATCode then do
    let vs ← readFloats stream bo f32 e.valueOffset 4 e.count
    pure { t with floatData := vs }
  else if e.ftype = DOUBLECode then do
    let vs ← readFloats stream bo f64 e.valueOffset 8 e.count
    pure { t with doubleData := vs }
  else
    pure t

/-- Embedding of iFDEntry.totalBytes: Count times the field-type width, a
uint32 product. -/
def totalBytes (e : IFDEntry) : GoResult Nat := do
  let w ← fieldTypeBytes e.ftype
  pure (u32 (e.count * w))

/-- Embedding of the directory-entry processing step of readTags (lines 259
to 289 of the source).  entryStart is the stream position at which the
12-byte entry record begins, so after binary.Read has consumed the record
the current position is entryStart + 12.  The step rejects entries whose
field type has width zero; when the computed total byte size fits in 4
bytes it overwrites ValueOffset with the current position minus 4 (the
own inline value slot of the entry) before decoding; otherwise it decodes from
the ValueOffset read from the file. -/
def processEntry (f32 f64 : List Nat → ℚ) (stream : List Nat) (bo : ByteOrder)
    (entryStart : Nat) (e : IFDEntry) : GoResult TagData := do
  let w ← fieldTypeBytes e.ftype
  if w = 0 then .err (.unrecognizedTag e.tag)
  else
    let tb ← totalBytes e
    let e1 := if tb ≤ 4 then { e with valueOffset := entryStart + 12 - 4 } else e
    ifdValue f32 f64 stream bo e1

/-- Point with longitude and latitude, modelled over the rationals. -/
structure Point : Type where
  Lon : ℚ
  Lat : ℚ
  deriving DecidableEq, Repr

/-- CornerCoordinates, the four corners of the image. -/
structure CornerCoordinates : Type where
  UpperLeft : Point
  LowerLeft : Point
  UpperRight : Point
  LowerRight : Point
  deriving DecidableEq, Repr

/-- Embedding of CornerCoordinates.Contains. -/
def Contains (cc : CornerCoordinates) (p : Point) : Prop :=
  cc.UpperLeft.Lon ≤ p.Lon ∧ p.Lon ≤ cc.UpperRight.Lon ∧
  cc.LowerLeft.Lat ≤ p.Lat ∧ p.Lat ≤ cc.UpperLeft.Lat

instance (cc : CornerCoordinates) (p : Point) : Decidable (Contains cc p) :=
  inferInstanceAs (Decidable (_ ∧ _ ∧ _ ∧ _))

/-- Embedding of the GeoTIFF record.  imageWidth, imageLength, tileWidth
and tileLength are uint16 in the source; data holds one float32 buffer per
tile. -/
structure GeoTIFF : Type where
  tags : Tags
  data : List (List ℚ)
  imageWidth : Nat
  imageLength : Nat
  tileWidth : Nat
  tileLength : Nat
  PixelScaleX : ℚ
  PixelScaleY : ℚ
  deriving DecidableEq, Repr

/-- Association-list lookup, the embedding of a read of the Tags map with
the ok flag. -/
def lookupTag (tags : Tags) (t : Nat) : Option TagData :=
  List.lookup t tags

/-- Embedding of GeoTIFF.Bounds.  The ModelTiepoint tag must be present,
have declared length 6 and hold DOUBLE data; indexing into the decoded
double list panics when the list is shorter than the index requires, as in
Go.  The two corner cases follow the source line by line; note that in the
general-tiepoint branch the source reads cc.LowerLeft.Lon, which is still
the zero value of the just-initialised CornerCoordinates record, so the
embedded longitude of LowerLeft is the literal 0. -/
def Bounds (g : GeoTIFF) : GoResult CornerCoordinates :=
  match lookupTag g.tags ModelTiepointTag with
  | none => .err .tiepointMissing
  | some tiePoint =>
    if tiePoint.length ≠ 6 then .err (.tiepointBadLength tiePoint.length)
    else if tiePoint.ftype = DOUBLECode then
      let tp := tiePoint.doubleData
      do
        let v0 ← goIndex tp 0
        let zeroOrigin ← (if v0 = 0 then do
            let v1 ← goIndex tp 1
            pure (decide (v1 = 0))
          else pure false)
        if zeroOrigin then do
          let x ← goIndex tp 3
          let y ← goIndex tp 4
          let ul : Point := { Lon := x, Lat := y }
          let ll : Point := { Lon := ul.Lon, Lat := ul.Lat - (g.imageLength : ℚ) * g.PixelScaleY }
          let lr : Point := { Lon := ul.Lon + (g.imageWidth : ℚ) * g.PixelScaleX, Lat := ll.Lat }
          let ur : Point := { Lon := lr.Lon, Lat := ul.Lat }
          pure { UpperLeft := ul, LowerLeft := ll, UpperRight := ur, LowerRight := lr }
        else do
          let i ← goIndex tp 0
          let j ← goIndex tp 1
          let x ← goIndex tp 3
          let y ← goIndex tp 4
          let ul : Point := { Lon := x - i * g.PixelScaleX, Lat := y + j * g.PixelScaleY }
          let lr : Point := { Lon := x + i * g.PixelScaleX, Lat := y - j * g.PixelScaleY }
          let ll : Point := { Lon := 0, Lat := lr.Lat }
          let ur : Point := { Lon := lr.Lon, Lat := ul.Lat }
          pure { UpperLeft := ul, LowerLeft := ll, UpperRight := ur, LowerRight := lr }
    else .err .tiepointBadType

/-- Embedding of GeoTIFF.loc.  x and y are Go ints.  After the bounds
guard, the tile grid arithmetic follows the source: the sum
imageWidth + tileWidth - 1 is a uint16 expression and wraps at 2 to the 16
(written u16 (w + tw + 65535), equal for w, tw < 65536); the divisions and
the final double indexing panic as in Go when the tile dimensions are zero
or the buffers are too short. -/
def loc (g : GeoTIFF) (x y : Int) : GoResult ℚ :=
  if x < 0 ∨ (g.imageWidth : Int) ≤ x ∨ y < 0 ∨ (g.imageLength : Int) ≤ y then
    .err .outsideImage
  else if g.tileWidth = 0 ∨ g.tileLength = 0 then .panicked
  else
    let xn := x.toNat
    let yn := y.toNat
    let tilesAcross := u16 (g.imageWidth + g.tileWidth + 65535) / g.tileWidth
    let idAcross := xn / g.tileWidth
    let idDown := yn / g.tileLength
    let tileNum := tilesAcross * idDown + idAcross
    let idI := xn % g.tileWidth
    let idJ := (yn % g.tileLength) * g.tileWidth
    do
      let tile ← goIndex g.data tileNum
      goIndex tile (idJ + idI)

/-- Truncation toward zero, the conversion int(f) of a Go float64. -/
def goTrunc (q : ℚ) : Int :=
  if q < 0 then -(Int.floor (-q)) else Int.floor q

/-- Embedding of the non-interpolated lookup of GeoTIFF.AtCoord (the path
taken when interp is false): bounds, containment check, index computation
by truncating division, then loc. -/
def nearestAt (g : GeoTIFF) (x y : ℚ) : GoResult ℚ := do
  let rect ← Bounds g
  let p : Point := { Lon := x, Lat := y }
  if ¬ Contains rect p then .err .outsideBounds
  else
    let xIdx := goTrunc (|rect.UpperLeft.Lon - p.Lon| / g.PixelScaleX)
    let yIdx := goTrunc (|p.Lat - rect.UpperLeft.Lat| / g.PixelScaleY)
    loc g xIdx yIdx

/-- Embedding of the loop body of GeoTIFF.AtPoints.  The source initialises
the result slice with make([]float32, 0, len(points)) - length zero - and
then assigns data[i] = v; an assignment at an index not below the current
length is a runtime panic in Go, which the dat.length test reproduces. -/
def atPointsLoop (atC : Point → GoResult ℚ) :
    List Point → List ℚ → Nat → GoResult (List ℚ)
  | [], dat, _ => .ok dat
  | p :: rest, dat, i =>
    match atC p with
    | .err e => .err e
    | .panicked => .panicked
    | .ok v =>
      if i < dat.length then atPointsLoop atC rest (dat.set i v) (i + 1)
      else .panicked

/-- Embedding of GeoTIFF.interp: the four probe points one pixel-scale step
away in each cardinal direction, resolved through the non-interpolated
path, averaged with equal weights. -/
def interpMean (g : GeoTIFF) (p : Point) : GoResult ℚ := do
  let points : List Point :=
    [ { Lon := p.Lon - g.PixelScaleX, Lat := p.Lat },
      { Lon := p.Lon + g.PixelScaleX, Lat := p.Lat },
      { Lon := p.Lon, Lat := p.Lat - g.PixelScaleY },
      { Lon := p.Lon, Lat := p.Lat + g.PixelScaleY } ]
  let pointValues ← atPointsLoop (fun q => nearestAt g q.Lon q.Lat) points [] 0
  pure ((pointValues.foldl (· + ·) 0) / 4)

/-- Embedding of GeoTIFF.AtCoord: bounds, containment check, then either
the interpolating mean or the nearest-pixel lookup. -/
def AtCoord (g : GeoTIFF) (x y : ℚ) (interp : Bool) : GoResult ℚ := do
  let rect ← Bounds g
  let p : Point := { Lon := x, Lat := y }
  if ¬ Contains rect p then .err .outsideBounds
  else if interp then interpMean g p
  else
    let xIdx := goTrunc (|rect.UpperLeft.Lon - p.Lon| / g.PixelScaleX)
    let yIdx := goTrunc (|p.Lat - rect.UpperLeft.Lat| / g.PixelScaleY)
    loc g xIdx yIdx

/-- Embedding of GeoTIFF.AtPoints. -/
def AtPoints (g : GeoTIFF) (points : List Point) (interp : Bool) :
    GoResult (List ℚ) :=
  atPointsLoop (fun p => AtCoord g p.Lon p.Lat interp) points [] 0

/-- Embedding of the constructor New.  The pixel-scale guard of the source
only rejects strictly negative values.  The tile grid arithmetic is uint16
as in readData; the divisions panic when a tile dimension is zero, and the
per-tile length check compares against the uint16 product of the tile
dimensions. -/
def New (data : List (List ℚ)) (iWidth iLength tWidth tLength : Nat)
    (pX pY : ℚ) (tags : Tags) : GoResult GeoTIFF :=
  if pX < 0 ∨ pY < 0 then .err .badPixelScale
  else if tWidth = 0 ∨ tLength = 0 then .panicked
  else
    let tilesAcross := u16 (iWidth + tWidth + 65535) / tWidth
    let tilesDown := u16 (iLength + tLength + 65535) / tLength
    let tilesPerImage := u16 (tilesAcross * tilesDown)
    if tilesPerImage ≠ data.length then .err .invalidNumTiles
    else if data.any (fun d => d.length ≠ u16 (tWidth * tLength)) then
      .err .invalidTileData
    else
      .ok { tags := tags, data := data, imageWidth := iWidth,
            imageLength := iLength, tileWidth := tWidth, tileLength := tLength,
            PixelScaleX := pX, PixelScaleY := pY }

/-- Embedding of the pixel-scale extraction step of Read (lines 637 to 659
of the source): the map read uses no ok flag, so a missing ModelPixelScale
yields the zero tagData; its declared length must be 3 and its type DOUBLE;
the first two decoded doubles become the pixel scales.  The source applies
no sign check whatsoever on this path. -/
def readPixelScale (tags : Tags) : GoResult (ℚ × ℚ) :=
  let pixelScale := (lookupTag tags ModelPixelScaleTag).getD TagData.zero
  if pixelScale.length ≠ 3 then .err (.pixelScaleBadLength pixelScale.length)
  else if pixelScale.ftype = DOUBLECode then do
    let a ← goIndex pixelScale.doubleData 0
    let b ← goIndex pixelScale.doubleData 1
    pure (a, b)
  else .err .pixelScaleBadType

/-- Field list of readData, in the order of the source. -/
def readDataFields : List Nat :=
  [BitsPerSampleTag, ImageLengthTag, ImageWidthTag, TileWidthTag,
   TileLengthTag, TileByteCountsTag, TileOffsetsTag]

/-- Embedding of the field-extraction loop of readData: each required tag
must be present (MissingTagError otherwise) and hold SHORT or LONG data,
which is filed into the shortData or longData map; any other decoded type
is a type-mismatch error. -/
def extractFields : List Nat → Tags → List (Nat × List Nat) →
    List (Nat × List Nat) → GoResult (List (Nat × List Nat) × List (Nat × List Nat))
  | [], _, shorts, longs => .ok (shorts, longs)
  | f :: rest, tags, shorts, longs =>
    match lookupTag tags f with
    | none => .err (.missingField f)
    | some v =>
      if v.ftype = SHORTCode then
        extractFields rest tags ((f, v.shortData) :: shorts) longs
      else if v.ftype = LONGCode then
        extractFields rest tags shorts ((f, v.longData) :: longs)
      else .err (.wrongFieldType f)

/-- Read of the Go maps shortData and longData built by the extraction
loop: a missing key yields the nil slice. -/
def mapGet (m : List (Nat × List Nat)) (k : Nat) : List Nat :=
  (List.lookup k m).getD []

/-- Embedding of the tile-fetch loop of readData.  For tile i the byte
count byteCounts[i] is read (a panicking index), the sample count is the
uint32 quotient by bitsPerSample / 8 (whose vanishing makes the quotient a
division by zero, a panic), and fetch off n models the Seek to the tile
offset followed by the binary.Read of n float32 samples. -/
def readDataLoop (fetch : Nat → Nat → GoResult (List ℚ)) (byteCounts : List Nat)
    (bitsPerSample : Nat) : List Nat → Nat → List (List ℚ) →
    GoResult (List (List ℚ))
  | [], _, acc => .ok acc.reverse
  | offset :: rest, i, acc => do
    let bc ← goIndex byteCounts i
    if bitsPerSample / 8 = 0 then .panicked
    else
      let numPixels := bc / (bitsPerSample / 8)
      let tileData ← fetch offset numPixels
      readDataLoop fetch byteCounts bitsPerSample rest (i + 1) (tileData :: acc)

/-- Embedding of readData.  After extraction, the first element of each
dimension slice is taken (a panicking index when the slice is empty, for
example when the tag decoded as LONG instead of SHORT), the tile grid is
computed in uint16 arithmetic, its size is compared against the length of
the TileOffsets slice only, and the fetch loop runs. -/
def readData (tags : Tags) (fetch : Nat → Nat → GoResult (List ℚ)) :
    GoResult (List (List ℚ)) := do
  let sl ← extractFields readDataFields tags [] []
  let imageWidth ← goIndex (mapGet sl.1 ImageWidthTag) 0
  let imageLength ← goIndex (mapGet sl.1 ImageLengthTag) 0
  let tileWidth ← goIndex (mapGet sl.1 TileWidthTag) 0
  let tileLength ← goIndex (mapGet sl.1 TileLengthTag) 0
  let bitsPerSample ← goIndex (mapGet sl.1 BitsPerSampleTag) 0
  let offsets := mapGet sl.2 TileOffsetsTag
  let byteCounts := mapGet sl.2 TileByteCountsTag
  if tileWidth = 0 ∨ tileLength = 0 then .panicked
  else
    let tilesAcross := u16 (imageWidth + tileWidth + 65535) / tileWidth
    let tilesDown := u16 (imageLength + tileLength + 65535) / tileLength
    let tilesPerImage := u16 (tilesAcross * tilesDown)
    if tilesPerImage ≠ offsets.length then .err .invalidTileCount
    else readDataLoop fetch byteCounts bitsPerSample offsets 0 []

/-- State-threaded form of Bounds: the receiver of the Go method is
threaded through the call and handed back; the body of the source contains
no assignment to any receiver field, so the method returns it unchanged. -/
def BoundsSt (g : GeoTIFF) : GoResult CornerCoordinates × GeoTIFF :=
  (Bounds g, g)

/-- State-threaded form of loc. -/
def locSt (g : GeoTIFF) (x y : Int) : GoResult ℚ × GeoTIFF :=
  (loc g x y, g)

/-- State-threaded form of AtCoord; the receiver passed on to Bounds, loc
and interp comes back unchanged from each of those reads. -/
def AtCoordSt (g : GeoTIFF) (x y : ℚ) (interp : Bool) : GoResult ℚ × GeoTIFF :=
  (AtCoord g x y interp, g)

/-- State-threaded form of AtPoints. -/
def AtPointsSt (g : GeoTIFF) (points : List Point) (interp : Bool) :
    GoResult (List ℚ) × GeoTIFF :=
  (AtPoints g points interp, g)

/-- Ceiling division, the exact tilesAcross formula of the specification
(no 16-bit wraparound).  This definition follows the words of the spec and
serves as the reference the code is compared against. -/
def ceilDiv (a b : Nat) : Nat := (a + b - 1) / b

/-- Tile index of the specification for pixel (x, y): tilesAcross times
tileRow plus tileCol, with tilesAcross the exact ceiling. -/
def specTileIndex (g : GeoTIFF) (x y : Nat) : Nat :=
  ceilDiv g.imageWidth g.tileWidth * (y / g.tileLength) + x / g.tileWidth

/-- Within-tile sample index of the specification for pixel (x, y). -/
def specPixelIndex (g : GeoTIFF) (x y : Nat) : Nat :=
  (y % g.tileLength) * g.tileWidth + x % g.tileWidth

/-- Fixture for C1: an image whose ModelTiepoint is the general (non
origin) tiepoint [1, 1, 0, 10, 20, 0], with unit pixel scales. -/
def gTiepointC1 : GeoTIFF :=
  { tags := [(ModelTiepointTag,
      { ftype := DOUBLECode, length := 6, doubleData := [1, 1, 0, 10, 20, 0] })],
    data := [], imageWidth := 1, imageLength := 1, tileWidth := 1, tileLength := 1,
    PixelScaleX := 1, PixelScaleY := 1 }

/-- Corners the embedded Bounds computes on the C1 fixture. -/
def ccC1 : CornerCoordinates :=
  { UpperLeft := { Lon := 9, Lat := 21 }, LowerLeft := { Lon := 0, Lat := 19 },
    UpperRight := { Lon := 11, Lat := 21 }, LowerRight := { Lon := 11, Lat := 19 } }

/-- Fixture for C2: a one-by-one image with the single sample 5 anchored at
the origin-tiepoint (100, 50), unit pixel scales. -/
def gPointC2 : GeoTIFF :=
  { tags := [(ModelTiepointTag,
      { ftype := DOUBLECode, length := 6, doubleData := [0, 0, 0, 100, 50, 0] })],
    data := [[5]], imageWidth := 1, imageLength := 1, tileWidth := 1, tileLength := 1,
    PixelScaleX := 1, PixelScaleY := 1 }

/-- Fixture for C5: a complete, well-typed tag table for a one-tile image
whose TileByteCounts slice has two entries although the tile grid has a
single tile. -/
def tagsC5 : Tags :=
  [ (BitsPerSampleTag, { ftype := SHORTCode, length := 1, shortData := [32] }),
    (ImageLengthTag, { ftype := SHORTCode, length := 1, shortData := [1] }),
    (ImageWidthTag, { ftype := SHORTCode, length := 1, shortData := [1] }),
    (TileWidthTag, { ftype := SHORTCode, length := 1, shortData := [1] }),
    (TileLengthTag, { ftype := SHORTCode, length := 1, shortData := [1] }),
    (TileByteCountsTag, { ftype := LONGCode, length := 2, longData := [4, 4] }),
    (TileOffsetsTag, { ftype := LONGCode, length := 1, longData := [8] }) ]

/-- Fetch model for C5: every read succeeds and yields zero samples. -/
def fetchC5 : Nat → Nat → GoResult (List ℚ) :=
  fun _ n => .ok (List.replicate n 0)

/-- Short-data map the extraction loop of readData builds on tagsC5. -/
def shortsC5 : List (Nat × List Nat) :=
  [ (TileLengthTag, [1]), (TileWidthTag, [1]), (ImageWidthTag, [1]),
    (ImageLengthTag, [1]), (BitsPerSampleTag, [32]) ]

/-- Long-data map the extraction loop of readData builds on tagsC5. -/
def longsC5 : List (Nat × List Nat) :=
  [ (TileOffsetsTag, [8]), (TileByteCountsTag, [4, 4]) ]

/-- Fixture for C6: the image record New returns for an empty data list,
image width 65535 and tile width 100; the uint16 sum 65535 + 100 - 1 wraps
to 98, so the computed tile grid is empty and New accepts the empty data
list. -/
def gOverflowC6 : GeoTIFF :=
  { tags := [], data := [], imageWidth := 65535, imageLength := 1,
    tileWidth := 100, tileLength := 1, PixelScaleX := 1, PixelScaleY := 1 }

/-- Fixture for C7: as gOverflowC6 with tile width 2; the uint16 sum
65535 + 2 - 1 wraps to exactly 0. -/
def gOverflowC7 : GeoTIFF :=
  { tags := [], data := [], imageWidth := 65535, imageLength := 1,
    tileWidth := 2, tileLength := 1, PixelScaleX := 1, PixelScaleY := 1 }

/-- Fixture for the round-trip witness: the image of the Test_New_Happy
test of the repository, a 6 by 4 image in 4 by 2 tiles. -/
def dataHappy : List (List ℚ) :=
  [ [1, 2, 3, 4, 6, 7, 0, 0],
    [1, 2, 3, 4, 6, 7, 0, 0],
    [1, 2, 3, 4, 6, 7, 0, 0],
    [1, 2, 3, 4, 6, 7, 0, 0] ]

/-- Image built by New from dataHappy. -/
def gHappy : GeoTIFF :=
  { tags := [], data := dataHappy, imageWidth := 6, imageLength := 4,
    tileWidth := 4, tileLength := 2, PixelScaleX := 1, PixelScaleY := 1 }

/-- Unfolding lemma for the GoResult monad. -/
@[simp] theorem goResult_bind_ok {α β : Type} (v : α) (f : α → GoResult β) :
    GoResult.bind (.ok v) f = f v := rfl

/-- Error propagation through bind. -/
@[simp] theorem goResult_bind_err {α β : Type} (e : GoErr) (f : α → GoResult β) :
    GoResult.bind (.err e) f = .err e := rfl

/-- Panic propagation through bind. -/
@[simp] theorem goResult_bind_panicked {α β : Type} (f : α → GoResult β) :
    GoResult.bind .panicked f = .panicked := rfl

/-- Pure of the GoResult monad is the ok constructor. -/
@[simp] theorem goResult_pure_eq {α : Type} (v : α) :
    (pure v : GoResult α) = GoResult.ok v := rfl

/-- The Bind.bind of the monad class unfolds to GoResult.bind. -/
@[simp] theorem goResult_monad_bind {α β : Type} (m : GoResult α) (f : α → GoResult β) :
    m >>= f = GoResult.bind m f := rfl

/-- Indexing a nonempty list at zero returns the head. -/
@[simp] theorem goIndex_cons_zero {α : Type} (a : α) (l : List α) :
    goIndex (a :: l) 0 = .ok a := by
  simp [goIndex]

/-- Indexing within range returns the element. -/
theorem goIndex_of_lt {α : Type} (l : List α) (i : Nat) (h : i < l.length) :
    goIndex l i = .ok (l.get ⟨i, h⟩) := by simp [goIndex, h]

/-- Indexing outside the range panics. -/
theorem goIndex_of_le {α : Type} (l : List α) (i : Nat) (h : l.length ≤ i) :
    goIndex l i = .panicked := by
  simp only [goIndex, dif_neg (Nat.not_lt.mpr h)]

/-- Ceiling division dominates: a value below the numerator, divided, stays
below the ceiling quotient. -/
theorem le_mul_ceilDiv (w tw : Nat) (htw : 0 < tw) : w ≤ tw * ceilDiv w tw := by
  have hmod := Nat.div_add_mod (w + tw - 1) tw
  have hlt := Nat.mod_lt (w + tw - 1) htw
  unfold ceilDiv
  omega

/-- Strict division bound against the ceiling quotient. -/
theorem div_lt_ceilDiv (x w tw : Nat) (htw : 0 < tw) (hx : x < w) :
    x / tw < ceilDiv w tw := by
  have h1 := le_mul_ceilDiv w tw htw
  have h2 : x < ceilDiv w tw * tw := by
    calc x < w := hx
    _ ≤ tw * ceilDiv w tw := h1
    _ = ceilDiv w tw * tw := Nat.mul_comm _ _
  exact (Nat.div_lt_iff_lt_mul htw).mpr h2

/-- Wraparound identity: when the exact uint16 expression w + tw - 1 does
not exceed 65535 the wrapped sum written u16 (w + tw + 65535) equals it. -/
theorem u16_pred_sum_eq (w tw : Nat) (htw : 0 < tw)
    (hov : w + tw - 1 < 65536) :
    u16 (w + tw + 65535) = w + tw - 1 := by
  have h1 : w + tw + 65535 = (w + tw - 1) + 65536 := by omega
  rw [u16, h1, Nat.add_mod_right, Nat.mod_eq_of_lt hov]

/-- Evaluation of loc at an in-range pixel of an image whose tile-grid sum
does not wrap and whose buffers are long enough: the result is the sample
at the specification tile index and pixel index. -/
theorem loc_eval_in_range (g : GeoTIFF) (x y : Int)
    (hx0 : 0 ≤ x) (hx : x < (g.imageWidth : Int)) (hy0 : 0 ≤ y)
    (hy : y < (g.imageLength : Int)) (htw : 0 < g.tileWidth)
    (htl : 0 < g.tileLength)
    (hov : g.imageWidth + g.tileWidth - 1 < 65536)
    (hti : specTileIndex g x.toNat y.toNat < g.data.length)
    (hpi : specPixelIndex g x.toNat y.toNat
      < (g.data.getD (specTileIndex g x.toNat y.toNat) []).length) :
    loc g x y = .ok ((g.data.getD (specTileIndex g x.toNat y.toNat) []).getD
      (specPixelIndex g x.toNat y.toNat) 0) := by
  have hguard : ¬(x < 0 ∨ (g.imageWidth : Int) ≤ x ∨ y < 0 ∨ (g.imageLength : Int) ≤ y) := by
    omega
  have hwrap := u16_pred_sum_eq g.imageWidth g.tileWidth htw hov
  rw [loc, if_neg hguard, if_neg (by omega)]
  simp only [hwrap]
  have hta : (g.imageWidth + g.tileWidth - 1) / g.tileWidth
      = ceilDiv g.imageWidth g.tileWidth := rfl
  rw [hta]
  have hti2 : ceilDiv g.imageWidth g.tileWidth * (y.toNat / g.tileLength)
      + x.toNat / g.tileWidth < g.data.length := hti
  rw [goIndex_of_lt _ _ hti2]
  simp only [goResult_monad_bind, goResult_bind_ok]
  have hrow : g.data.get ⟨_, hti2⟩
      = g.data.getD (specTileIndex g x.toNat y.toNat) [] := by
    rw [List.getD_eq_getElem _ _ hti]
    rfl
  rw [hrow]
  have hpi2 : (y.toNat % g.tileLength) * g.tileWidth + x.toNat % g.tileWidth
      < (g.data.getD (specTileIndex g x.toNat y.toNat) []).length := hpi
  rw [goIndex_of_lt _ _ hpi2]
  rw [List.getD_eq_getElem _ _ hpi]
  rfl

/-- C1.  The claim states that on a general tiepoint [I, J, K, X, Y, Z]
with not (I = 0 and J = 0) the corner lowerLeft equals
(upperLeft.lon, lowerRight.lat).  The code instead reads the longitude of
the still-zero LowerLeft field of the record it is building, so the
returned lowerLeft longitude is the literal 0: on the tiepoint
[1, 1, 0, 10, 20, 0] with unit pixel scales Bounds returns
lowerLeft = (0, 19) although upperLeft = (9, 21).  The claim describes the
intent (the zero-origin branch and the spec both use upperLeft.lon); the
code is a self-referential slip. -/
theorem bounds_general_tiepoint_lowerLeft_defect :
    Bounds gTiepointC1 = .ok ccC1 ∧ ccC1.LowerLeft.Lon ≠ ccC1.UpperLeft.Lon := by
  constructor
  · norm_num [Bounds, gTiepointC1, ccC1, lookupTag, List.lookup, goIndex,
      ModelTiepointTag, DOUBLECode, GoResult.bind]
  · norm_num [ccC1]

/-- C2.  The claim states that AtPoints maps AtCoord over the points and
returns the values in order.  The source initialises the result slice with
length zero (make([]float32, 0, len(points))) and then assigns data[i] = v,
so the very first successful AtCoord triggers an index-out-of-range panic:
on a one-pixel image whose only sample is 5, AtCoord succeeds at the
tiepoint coordinate yet AtPoints on that single point panics instead of
returning [5]. -/
theorem atPoints_panics_on_successful_point :
    AtCoord gPointC2 100 50 false = .ok 5 ∧
    AtPoints gPointC2 [{ Lon := 100, Lat := 50 }] false = .panicked := by
  constructor
  · norm_num [AtCoord, Bounds, gPointC2, lookupTag, List.lookup, goIndex,
      ModelTiepointTag, DOUBLECode, GoResult.bind, Contains, goTrunc, loc, u16]
  · norm_num [AtPoints, atPointsLoop, AtCoord, Bounds, gPointC2, lookupTag,
      List.lookup, goIndex, ModelTiepointTag, DOUBLECode, GoResult.bind,
      Contains, goTrunc, loc, u16]

/-- C3.  The claim states that the width lookup returns 0 for every
unrecognized field-type code.  The guard of fieldType.bytes compares the
code with strictly-greater-than the table length 13, so the unrecognized
code 13 slips past the guard and indexes one past the end of the table: a
runtime panic, not the documented 0 (the function comment of the source
says: returns 0 if unrecognized).  Codes 0 and those above 13 do return 0,
and the recognized codes return their table widths. -/
theorem fieldTypeBytes_thirteen_panics :
    fieldTypeBytes 13 = .panicked ∧ fieldTypeBytes 0 = .ok 0 ∧
    fieldTypeBytes 14 = .ok 0 ∧ fieldTypeBytes 12 = .ok 8 := by
  refine ⟨?_, ?_, ?_, ?_⟩ <;> decide

/-- C4.  The claim states that construction fails unless both pixel scales
are strictly positive.  The guard of New is pX < 0 or pY < 0, so the zero
pixel scale pX = 0 is accepted (first conjunct), although the error message
of that very guard says the scales should be greater than 0; and the Read
path applies no sign check at all, accepting even negative decoded
ModelPixelScale values (second conjunct). -/
theorem construction_accepts_nonpositive_pixel_scale :
    New [[(5 : ℚ)]] 1 1 1 1 0 1 []
      = .ok { tags := [], data := [[5]], imageWidth := 1, imageLength := 1,
              tileWidth := 1, tileLength := 1, PixelScaleX := 0, PixelScaleY := 1 } ∧
    readPixelScale [(ModelPixelScaleTag,
        { ftype := DOUBLECode, length := 3, doubleData := [-1, -1, -1] })]
      = .ok (-1, -1) := by
  refine ⟨?_, ?_⟩ <;> decide

/-- C9.  Every query operation of the image (Bounds, loc, AtCoord in both
modes, AtPoints) threads the receiver through without assigning to any of
its fields, so the image that comes back from the state-threaded form of
each query is the image that went in. -/
theorem queries_preserve_image (g : GeoTIFF) (x y : Int) (lon lat : ℚ)
    (interp : Bool) (points : List Point) :
    (BoundsSt g).2 = g ∧ (locSt g x y).2 = g ∧
    (AtCoordSt g lon lat interp).2 = g ∧ (AtPointsSt g points interp).2 = g :=
  ⟨rfl, rfl, rfl, rfl⟩

/-- C5 counterexample.  The claim states that readData fails with the
inconsistent-tile-count error whenever tilesPerImage differs from the
length of the TileByteCounts slice.  On tagsC5 the tile grid has exactly
one tile and TileOffsets has one entry, but TileByteCounts has two entries;
readData nevertheless succeeds, so the TileByteCounts half of the claim is
false. -/
theorem readData_ignores_byteCounts_length :
    readData tagsC5 fetchC5 = .ok [[0]] ∧
    ((lookupTag tagsC5 TileByteCountsTag).getD TagData.zero).longData.length = 2 ∧
    u16 (u16 (1 + 1 + 65535) / 1 * (u16 (1 + 1 + 65535) / 1)) = 1 := by
  refine ⟨?_, ?_, ?_⟩ <;> decide

/-- C5 as amended.  With the seven required tags decoding to SHORT and LONG
data as expected (nonempty dimension slices, nonzero tile dimensions), the
inconsistent-tile-count error is governed solely by the TileOffsets length:
readData fails with it exactly when the uint16 tile-grid size differs from
the length of TileOffsets, and otherwise proceeds to the fetch loop
whatever the length of TileByteCounts is. -/
theorem readData_tile_count_check (tags : Tags)
    (fetch : Nat → Nat → GoResult (List ℚ))
    (shorts longs : List (Nat × List Nat)) (iW iL tW tL bps : Nat)
    (rW rL rTW rTL rB : List Nat)
    (hex : extractFields readDataFields tags [] [] = .ok (shorts, longs))
    (hW : mapGet shorts ImageWidthTag = iW :: rW)
    (hL : mapGet shorts ImageLengthTag = iL :: rL)
    (hTW : mapGet shorts TileWidthTag = tW :: rTW)
    (hTL : mapGet shorts TileLengthTag = tL :: rTL)
    (hB : mapGet shorts BitsPerSampleTag = bps :: rB)
    (htw : tW ≠ 0) (htl : tL ≠ 0) :
    (u16 (u16 (iW + tW + 65535) / tW * (u16 (iL + tL + 65535) / tL))
        ≠ (mapGet longs TileOffsetsTag).length →
      readData tags fetch = .err .invalidTileCount) ∧
    (u16 (u16 (iW + tW + 65535) / tW * (u16 (iL + tL + 65535) / tL))
        = (mapGet longs TileOffsetsTag).length →
      readData tags fetch
        = readDataLoop fetch (mapGet longs TileByteCountsTag) bps
            (mapGet longs TileOffsetsTag) 0 []) := by
  unfold readData
  rw [hex]
  simp only [goResult_monad_bind, goResult_bind_ok, hW, hL, hTW, hTL, hB,
    goIndex_cons_zero]
  constructor
  · intro h
    simp [htw, htl, h]
  · intro h
    simp [htw, htl, h]

/-- C5 witness: on the concrete tag table tagsC5 the grid size 1 equals the
TileOffsets length, so readData reaches the fetch loop even though
TileByteCounts has two entries. -/
theorem readData_tile_count_check_witness :
    readData tagsC5 fetchC5 = readDataLoop fetchC5 [4, 4] 32 [8] 0 [] := by
  have h := (readData_tile_count_check tagsC5 fetchC5 shortsC5 longsC5
    1 1 1 1 32 [] [] [] [] [] (by decide) (by decide) (by decide) (by decide)
    (by decide) (by decide) (by decide) (by decide)).2 (by decide)
  exact h

/-- C6 counterexample.  The claim states that for every in-range pixel of
an image, loc returns the sample at the index computed with
tilesAcross = ceil(imageWidth / tileWidth).  On an image New itself
accepts - width 65535, tile width 100, empty data, since the uint16 sum
65535 + 100 - 1 wraps to 98 and the computed grid is empty - the pixel
(0, 0) is in range and the exact ceiling is 656, yet loc panics on the
empty buffer list instead of returning any value. -/
theorem loc_overflow_counterexample :
    New ([] : List (List ℚ)) 65535 1 100 1 1 1 [] = .ok gOverflowC6 ∧
    loc gOverflowC6 0 0 = .panicked ∧
    ceilDiv gOverflowC6.imageWidth gOverflowC6.tileWidth = 656 := by
  refine ⟨?_, ?_, ?_⟩ <;> decide

/-- C6 as amended.  The out-of-bounds half holds as claimed: any
coordinate outside the image is rejected with the out-of-bounds error.
The in-range half holds with tilesAcross equal to the exact ceiling
provided the uint16 sum imageWidth + tileWidth - 1 does not wrap and the
tile buffers are long enough for the computed indices; loc then returns
tileBuffers[tilesAcross * (y / tileLength) + x / tileWidth] at offset
(y mod tileLength) * tileWidth + (x mod tileWidth). -/
theorem loc_spec (g : GeoTIFF) (x y : Int) :
    ((x < 0 ∨ (g.imageWidth : Int) ≤ x ∨ y < 0 ∨ (g.imageLength : Int) ≤ y) →
      loc g x y = .err .outsideImage) ∧
    (∀ (hx0 : 0 ≤ x) (hx : x < (g.imageWidth : Int)) (hy0 : 0 ≤ y)
        (hy : y < (g.imageLength : Int)) (htw : 0 < g.tileWidth)
        (htl : 0 < g.tileLength)
        (hov : g.imageWidth + g.tileWidth - 1 < 65536)
        (hti : specTileIndex g x.toNat y.toNat < g.data.length)
        (hpi : specPixelIndex g x.toNat y.toNat
          < (g.data.getD (specTileIndex g x.toNat y.toNat) []).length),
      loc g x y = .ok ((g.data.getD (specTileIndex g x.toNat y.toNat) []).getD
        (specPixelIndex g x.toNat y.toNat) 0)) := by
  constructor
  · intro h
    simp only [loc, if_pos h]
  · intro hx0 hx hy0 hy htw htl hov hti hpi
    exact loc_eval_in_range g x y hx0 hx hy0 hy htw htl hov hti hpi

/-- C6 witness: on the 6 by 4 test image in 4 by 2 tiles, loc at the
in-range pixel (5, 1) returns the supplied sample 7 at tile index 1,
sample index 5. -/
theorem loc_spec_witness : loc gHappy 5 1 = .ok 7 := by
  have h := (loc_spec gHappy 5 1).2 (by decide) (by decide) (by decide)
    (by decide) (by decide) (by decide) (by decide) (by decide) (by decide)
  exact h

/-- C7 counterexample.  The claim states that loc succeeds on every
in-range pixel of every image New accepts.  New accepts the empty data
list with image width 65535 and tile width 2, since the uint16 sum
65535 + 2 - 1 wraps to exactly 0 and the computed grid is empty; the pixel
(0, 0) then passes the range guard of loc but the lookup panics on the
empty buffer list. -/
theorem new_loc_overflow_counterexample :
    New ([] : List (List ℚ)) 65535 1 2 1 1 1 [] = .ok gOverflowC7 ∧
    loc gOverflowC7 0 0 = .panicked := by
  refine ⟨?_, ?_⟩ <;> decide

/-- C7 as amended.  For every image New accepts whose tile-grid arithmetic
does not wrap at 16 bits (sums imageWidth + tileWidth - 1 and
imageLength + tileLength - 1 below 65536, products tileWidth * tileLength
and tilesAcross * tilesDown below 65536), loc succeeds on every in-range
pixel and returns exactly the sample supplied at the tile of that pixel (at the
ceiling-formula tile index) and within-tile position. -/
theorem new_loc_roundtrip (data : List (List ℚ)) (iW iL tW tL : Nat)
    (pX pY : ℚ) (tags : Tags) (g : GeoTIFF) (x y : Nat)
    (htw : 0 < tW) (htl : 0 < tL)
    (hovW : iW + tW - 1 < 65536) (hovL : iL + tL - 1 < 65536)
    (hovT : tW * tL < 65536)
    (hovN : ceilDiv iW tW * ceilDiv iL tL < 65536)
    (hnew : New data iW iL tW tL pX pY tags = .ok g)
    (hx : x < iW) (hy : y < iL) :
    loc g (x : Int) (y : Int)
      = .ok ((data.getD (ceilDiv iW tW * (y / tL) + x / tW) []).getD
          ((y % tL) * tW + x % tW) 0) := by
  rw [New] at hnew
  rw [u16_pred_sum_eq iW tW htw hovW, u16_pred_sum_eq iL tL htl hovL] at hnew
  have hwrapN : u16 (ceilDiv iW tW * ceilDiv iL tL)
      = ceilDiv iW tW * ceilDiv iL tL := Nat.mod_eq_of_lt hovN
  rw [show (iW + tW - 1) / tW = ceilDiv iW tW from rfl,
    show (iL + tL - 1) / tL = ceilDiv iL tL from rfl] at hnew
  simp only [hwrapN] at hnew
  split_ifs at hnew with h1 h2 h3 h4
  have hlen : ceilDiv iW tW * ceilDiv iL tL = data.length := not_ne_iff.mp h3
  have htiles : ∀ d ∈ data, d.length = tW * tL := by
    intro d hd
    have h5 := (List.any_eq_false).mp (Bool.eq_false_iff.mpr h4) d hd
    rw [show u16 (tW * tL) = tW * tL from Nat.mod_eq_of_lt hovT] at h5
    simpa using h5
  have hg : g = { tags := tags, data := data, imageWidth := iW,
                  imageLength := iL, tileWidth := tW, tileLength := tL,
                  PixelScaleX := pX, PixelScaleY := pY } := by
    injection hnew with h
    exact h.symm
  subst hg
  have hxd : x / tW < ceilDiv iW tW := div_lt_ceilDiv x iW tW htw hx
  have hyd : y / tL < ceilDiv iL tL := div_lt_ceilDiv y iL tL htl hy
  have hti : ceilDiv iW tW * (y / tL) + x / tW
      < ceilDiv iW tW * ceilDiv iL tL := by
    calc ceilDiv iW tW * (y / tL) + x / tW
        < ceilDiv iW tW * (y / tL) + ceilDiv iW tW := Nat.add_lt_add_left hxd _
    _ = ceilDiv iW tW * (y / tL + 1) := by ring
    _ ≤ ceilDiv iW tW * ceilDiv iL tL :=
        Nat.mul_le_mul_left _ (Nat.succ_le_of_lt hyd)
  have htiLen : ceilDiv iW tW * (y / tL) + x / tW < data.length := hlen ▸ hti
  have hrowMem : data.getD (ceilDiv iW tW * (y / tL) + x / tW) [] ∈ data := by
    rw [List.getD_eq_getElem _ _ htiLen]
    exact List.getElem_mem _
  have hrowLen : (data.getD (ceilDiv iW tW * (y / tL) + x / tW) []).length
      = tW * tL := htiles _ hrowMem
  have hpiBound : (y % tL) * tW + x % tW < tW * tL := by
    have hxm : x % tW < tW := Nat.mod_lt x htw
    have hym : y % tL < tL := Nat.mod_lt y htl
    calc (y % tL) * tW + x % tW < (y % tL) * tW + tW := Nat.add_lt_add_left hxm _
    _ = (y % tL + 1) * tW := by ring
    _ ≤ tL * tW := Nat.mul_le_mul_right _ (Nat.succ_le_of_lt hym)
    _ = tW * tL := Nat.mul_comm _ _
  have h := loc_eval_in_range
    { tags := tags, data := data, imageWidth := iW, imageLength := iL,
       tileWidth := tW, tileLength := tL, PixelScaleX := pX, PixelScaleY := pY }
    (x : Int) (y : Int) (by omega) (by exact_mod_cast Int.ofNat_lt.mpr hx)
    (by omega) (by exact_mod_cast Int.ofNat_lt.mpr hy) htw htl hovW
    (by simp only [specTileIndex, Int.toNat_natCast]; exact htiLen)
    (by
      simp only [specPixelIndex, specTileIndex, Int.toNat_natCast]
      rw [hrowLen]
      exact hpiBound)
  simp only [specTileIndex, specPixelIndex, Int.toNat_natCast] at h
  exact h

/-- C7 witness: the test image of the repository round-trips: the sample 1
supplied at pixel (0, 0) of the first tile comes back from loc. -/
theorem new_loc_roundtrip_witness : loc gHappy 0 0 = .ok 1 := by
  have h := new_loc_roundtrip dataHappy 6 4 4 2 1 1 [] gHappy 0 0
    (by decide) (by decide) (by decide) (by decide) (by decide) (by decide)
    (by decide) (by decide) (by decide)
  exact h

/-- C8.  For a directory entry of recognized nonzero width read from
position entryStart (so the stream sits at entryStart + 12 after the
12-byte record), the decode position is resolved as follows: when the
computed total byte size is at most 4 the decoder decodes the entry from
the position just past the record minus exactly 4 bytes (its own inline
value slot); when it exceeds 4 the decoder decodes from the 4-byte slot
interpreted as a file offset. -/
theorem inline_value_resolution (f32 f64 : List Nat → ℚ) (stream : List Nat)
    (bo : ByteOrder) (entryStart : Nat) (e : IFDEntry) (w : Nat)
    (hw : fieldTypeBytes e.ftype = .ok w) (hw0 : w ≠ 0) :
    (u32 (e.count * w) ≤ 4 →
      processEntry f32 f64 stream bo entryStart e
        = ifdValue f32 f64 stream bo { e with valueOffset := entryStart + 12 - 4 }) ∧
    (4 < u32 (e.count * w) →
      processEntry f32 f64 stream bo entryStart e
        = ifdValue f32 f64 stream bo e) := by
  constructor
  · intro h
    simp only [processEntry, totalBytes, hw, goResult_monad_bind, goResult_bind_ok,
      goResult_pure_eq, if_neg hw0, if_pos h]
  · intro h
    simp only [processEntry, totalBytes, hw, goResult_monad_bind, goResult_bind_ok,
      goResult_pure_eq, if_neg hw0, if_neg (Nat.not_le.mpr h)]

/-- C8 witness: a SHORT entry of count 1 (total size 2 bytes, inline) read
from position 100 decodes from position 108 = 100 + 12 - 4, the inline
slot. -/
theorem inline_value_resolution_witness :
    processEntry (fun _ => 0) (fun _ => 0) [1, 2, 3] ByteOrder.little 100
        { tag := 256, ftype := 3, count := 1, valueOffset := 7777 }
      = ifdValue (fun _ => 0) (fun _ => 0) [1, 2, 3] ByteOrder.little
        { tag := 256, ftype := 3, count := 1, valueOffset := 108 } := by
  have h := (inline_value_resolution (fun _ => 0) (fun _ => 0) [1, 2, 3]
    ByteOrder.little 100 { tag := 256, ftype := 3, count := 1, valueOffset := 7777 }
    2 (by decide) (by decide)).1 (by decide)
  exact h

/-- C10.  A successful decode of an ASCII entry of count n yields exactly
the n bytes of the stream starting at the resolved value offset,
byte-for-byte and with nothing stripped (in particular a trailing NUL byte
is retained); the decoded text has exactly n bytes. -/
theorem ascii_decode_exact (f32 f64 : List Nat → ℚ) (stream : List Nat)
    (bo : ByteOrder) (e : IFDEntry) (hft : e.ftype = ASCIICode)
    (hlen : e.valueOffset + e.count ≤ stream.length) :
    ifdValue f32 f64 stream bo e
      = .ok { ftype := e.ftype, length := e.count,
              asciiData := (stream.drop e.valueOffset).take e.count } ∧
    ((stream.drop e.valueOffset).take e.count).length = e.count := by
  constructor
  · simp only [ifdValue, hft, readBytes, if_pos hlen, goResult_monad_bind,
      goResult_bind_ok, goResult_pure_eq, ASCIICode, BYTECode]
    norm_num
  · rw [List.length_take, List.length_drop]
    omega

/-- C10 witness: the three ASCII bytes 72, 105, 0 - text ending in the NUL
byte - decode to exactly those three bytes, NUL retained. -/
theorem ascii_decode_exact_witness :
    ifdValue (fun _ => 0) (fun _ => 0) [72, 105, 0] ByteOrder.little
        { tag := 34737, ftype := 2, count := 3, valueOffset := 0 }
      = .ok { ftype := 2, length := 3, asciiData := [72, 105, 0] } := by
  have h := (ascii_decode_exact (fun _ => 0) (fun _ => 0) [72, 105, 0]
    ByteOrder.little { tag := 34737, ftype := 2, count := 3, valueOffset := 0 }
    (by decide) (by decide)).1
  exact h

end Geotiff
